import Mathlib

/-!
Verification development for the transfer_statistics repository.

The Python sources are shallowly embedded as Lean definitions:

* numeric GPA and credit values are modelled as rationals (`ℚ`);
* Python `round` (round-half-to-even) is `pyRound`;
* Python list indexing (negative indices wrap, out-of-range raises) is
  `pyGetItem`, with `Option` modelling the possible `IndexError`;
* Python strings are Lean `String`s, with the handful of string methods the
  code uses (`replace`, `strip`, `count`, `rfind`, slicing, `split`)
  re-implemented by structural recursion on the character list so that every
  definition evaluates inside the kernel;
* Python `dict` lookups are association-list lookups returning `Option`
  (`none` models `KeyError`); `defaultdict(set)` lookups default to `[]`;
* Python `set`s are modelled as duplicate-free lists whose order stands for
  the (implementation defined) iteration order of the set;
* fallible functions return `Option` or `Except PyErr`.
-/

/-! ## Python primitives -/

/-- Python `round()`: round half to even, returning an integer. -/
def pyRound (q : ℚ) : ℤ :=
  let f : ℤ := ⌊q⌋
  let frac : ℚ := q - f
  if frac < 1/2 then f
  else if 1/2 < frac then f + 1
  else if 2 ∣ f then f else f + 1

/-- Python list indexing `xs[i]`: negative indices count from the end;
`none` models `IndexError`. -/
def pyGetItem (xs : List String) (i : ℤ) : Option String :=
  if 0 ≤ i then xs.get? i.toNat
  else if 0 ≤ i + xs.length then xs.get? (i + xs.length).toNat else none

/-- One step list of Python `str.replace`: fuel-driven left-to-right scan,
replacing each non-overlapping occurrence of `pat` by `rep`. -/
def replaceFuel (pat rep : List Char) : ℕ → List Char → List Char
  | 0, s => s
  | _ + 1, [] => []
  | fuel + 1, c :: rest =>
    if List.isPrefixOf pat (c :: rest) ∧ pat ≠ [] then
      rep ++ replaceFuel pat rep fuel ((c :: rest).drop pat.length)
    else
      c :: replaceFuel pat rep fuel rest

/-- Python `str.replace(pat, rep)` (all occurrences; `pat` nonempty in all
uses made by the sources). -/
def pyReplace (s pat rep : String) : String :=
  ⟨replaceFuel pat.data rep.data s.data.length s.data⟩

/-- Python `str.count(c)` for a single character. -/
def pyCountChar (s : String) (c : Char) : ℕ :=
  s.data.count c

/-- Python `str.rfind(c)` for a single character: index of the last
occurrence, `-1` when absent. -/
def pyRFindChar (s : String) (c : Char) : ℤ :=
  match (s.data.reverse).findIdx? (· = c) with
  | none => -1
  | some i => (s.data.length : ℤ) - 1 - i

/-- Python slicing `s[:n]` (character based). -/
def pyTake (s : String) (n : ℕ) : String := ⟨s.data.take n⟩

/-- Python slicing `s[n:]` (character based). -/
def pyDrop (s : String) (n : ℕ) : String := ⟨s.data.drop n⟩

/-- Python `s[a:b]` (character based, `0 ≤ a ≤ b`). -/
def pySlice (s : String) (a b : ℕ) : String := ⟨(s.data.take b).drop a⟩

/-- Python `str.strip(chars)`: drop leading and trailing characters that
belong to `chars`. -/
def pyStrip (s : String) (chars : List Char) : String :=
  ⟨(((s.data.dropWhile (· ∈ chars)).reverse.dropWhile (· ∈ chars)).reverse)⟩

/-- Python `s.split(' ')[0]`: the longest space-free leading segment. -/
def firstWord (s : String) : String :=
  ⟨s.data.takeWhile (· ≠ ' ')⟩

/-- Python `str.lower()`. -/
def pyLower (s : String) : String := ⟨s.data.map Char.toLower⟩

/-- Python `', '.join(items)`. -/
def joinComma (items : List String) : String :=
  String.intercalate ", " items

/-- Python `set.add` on a set modelled as a duplicate-free list: appending
keeps the element out if already present. -/
def pySetAdd {α : Type} [DecidableEq α] (s : List α) (a : α) : List α :=
  if a ∈ s then s else s ++ [a]

/-- Build a Python set from an iteration sequence (dedup, first occurrence
keeps its position). -/
def pySetOf {α : Type} [DecidableEq α] (xs : List α) : List α :=
  xs.foldl pySetAdd []

/-- Python `dict` lookup: `none` models `KeyError`. -/
def dictGet {α β : Type} [DecidableEq α] (m : List (α × β)) (key : α) :
    Option β :=
  (m.find? (fun p => p.1 = key)).map (·.2)

/-- Python `defaultdict(set)` lookup: missing keys give the empty set. -/
def dictGetD {α β : Type} [DecidableEq α] (m : List (α × List β)) (key : α) :
    List β :=
  (dictGet m key).getD []

/-- Stable insertion used by `pySort`: a later element is placed after every
already-present element that is `≤` it, as Python's stable `list.sort`. -/
def insertStable {α : Type} (le : α → α → Bool) (x : α) : List α → List α
  | [] => [x]
  | y :: ys => if le y x then y :: insertStable le x ys else x :: y :: ys

/-- Python `list.sort` / `sorted`: stable sort by the boolean order `le`. -/
def pySort {α : Type} (le : α → α → Bool) (xs : List α) : List α :=
  xs.foldl (fun acc x => insertStable le x acc) []

/-! ## The letter-grade table and the two copies of `_grade`

`query.py` and `build_rule_descriptions.py` each define a `_grade`
function; the two differ only in the wording of the returned strings.
Both are embedded, in namespaces `Query` and `Build`.
`none` models a raised exception (the failed `assert min_gpa <= max_gpa`,
or an `IndexError` from the letter-table lookup). -/

/-- The fixed 14-entry letter table shared by both `_grade` copies. -/
def letters : List String :=
  ["F", "F", "D-", "D", "D+", "C-", "C", "C+", "B-", "B", "B+", "A-", "A", "A+"]

namespace Query

/-- `_grade` from `query.py` (lines 36-91). -/
def _grade (min_gpa max_gpa : ℚ) : Option String :=
  if min_gpa ≤ max_gpa then
    let mn : ℚ := if min_gpa < 1 then 7/10 else min_gpa
    let mx : ℚ := if max_gpa > 4 then 4 else max_gpa
    if mn < 1 ∧ mx > 37/10 then some "any passsing grade"
    else if mn ≥ 7/10 ∧ mx ≥ 37/10 then
      (pyGetItem letters (pyRound (mn * 3))).map (fun l => l ++ " or above")
    else if mn > 7/10 ∧ mx < 37/10 then
      match pyGetItem letters (pyRound (mn * 3)),
            pyGetItem letters (pyRound (mx * 3)) with
      | some a, some b => some ("between " ++ a ++ " and " ++ b)
      | _, _ => none
    else if mx < 37/10 then
      (pyGetItem letters (pyRound (mx * 3))).map (fun l => "below " ++ l)
    else some "any passing grade"
  else none

end Query

namespace Build

/-- `_grade` from `build_rule_descriptions.py` (lines 79-134). -/
def _grade (min_gpa max_gpa : ℚ) : Option String :=
  if min_gpa ≤ max_gpa then
    let mn : ℚ := if min_gpa < 1 then 7/10 else min_gpa
    let mx : ℚ := if max_gpa > 4 then 4 else max_gpa
    if mn < 1 ∧ mx > 37/10 then some "Pass"
    else if mn ≥ 7/10 ∧ mx ≥ 37/10 then
      (pyGetItem letters (pyRound (mn * 3))).map (fun l => l ++ " or above")
    else if mn > 7/10 ∧ mx < 37/10 then
      match pyGetItem letters (pyRound (mn * 3)),
            pyGetItem letters (pyRound (mx * 3)) with
      | some a, some b => some ("Between " ++ a ++ " and " ++ b)
      | _, _ => none
    else if mx < 37/10 then
      (pyGetItem letters (pyRound (mx * 3))).map (fun l => "Below " ++ l)
    else some "Pass"
  else none

end Build

/-! ## `build_rule_descriptions.py`: `andor_list` and `format_rule`

The named tuples `Source_Course`, `Destination_Course` and `Transfer_Rule`
are embedded as structures with the same field names.  `format_rule` is a
function of the rule and of the module-level `institution_names` dictionary;
`none` models a raised exception (failed duplicate-id assertion, a raise
inside `_grade`, or a `KeyError` on the institution-name lookup). -/

/-- `Source_Course` named tuple (build_rule_descriptions.py lines 29-41). -/
structure Source_Course where
  course_id : ℤ
  offer_count : ℤ
  discipline : String
  catalog_number : String
  discipline_name : String
  cuny_subject : String
  cat_num : ℚ
  min_credits : ℚ
  max_credits : ℚ
  min_gpa : ℚ
  max_gpa : ℚ
deriving DecidableEq

/-- `Destination_Course` named tuple (build_rule_descriptions.py lines
43-55). -/
structure Destination_Course where
  course_id : ℤ
  offer_count : ℤ
  discipline : String
  catalog_number : String
  discipline_name : String
  cuny_subject : String
  cat_num : ℚ
  transfer_credits : ℚ
  credit_source : String
  is_mesg : Bool
  is_bkcr : Bool
deriving DecidableEq

/-- `Transfer_Rule` named tuple (build_rule_descriptions.py lines 14-25). -/
structure Transfer_Rule where
  rule_id : ℤ
  source_institution : String
  destination_institution : String
  subject_area : String
  group_number : ℤ
  source_disciplines : String
  source_subjects : String
  review_status : ℤ
  source_courses : List Source_Course
  destination_courses : List Destination_Course
deriving DecidableEq

/-- `andor_list` (build_rule_descriptions.py lines 60-74). -/
def andor_list (items : List String) (andor : String) : String :=
  let return_str := joinComma items
  let k := pyRFindChar return_str ','
  let return_str :=
    if k > 0 then
      pyTake return_str (k + 1).toNat ++ " " ++ andor
        ++ pyDrop return_str (k + 1).toNat
    else return_str
  if pyCountChar return_str ',' = 1 then pyReplace return_str "," ""
  else return_str

/-- Python's decimal rendering `f-string` of a float value, for values that
are exact short decimal fractions (the only values the claims exercise):
digits of the fractional part, at least one. -/
def fracDigits : ℕ → ℚ → String
  | 0, _ => ""
  | fuel + 1, f =>
    if f = 0 then ""
    else
      let d : ℤ := ⌊f * 10⌋
      toString d ++ fracDigits fuel (f * 10 - d)

/-- Python `f-string` rendering of a float (`f'{x}'`), exact for short
decimal fractions: integer part, point, fraction digits (at least one). -/
def pyFloatStr (q : ℚ) : String :=
  let sign := if q < 0 then "-" else ""
  let a : ℚ := |q|
  let ip : ℤ := ⌊a⌋
  let ds := fracDigits 17 (a - ip)
  sign ++ toString ip ++ "." ++ (if ds = "" then "0" else ds)

/-- Accumulated `min_source_credits` of `format_rule` (line 283). -/
def min_source_credits (scs : List Source_Course) : ℚ :=
  scs.foldl (fun acc c => acc + c.min_credits) 0

/-- Accumulated `max_source_credits` of `format_rule` (line 284). -/
def max_source_credits (scs : List Source_Course) : ℚ :=
  scs.foldl (fun acc c => acc + c.max_credits) 0

/-- Order on the `(min_gpa, max_gpa)` keys: Python tuple comparison, used
by `by_grade_keys.sort()` (line 291). -/
def gradeKeyLe (a b : ℚ × ℚ) : Bool :=
  decide (a.1 < b.1 ∨ (a.1 = b.1 ∧ a.2 ≤ b.2))

/-- Order by `cat_num`, used by `courses.sort(key=lambda c: c.cat_num)`
(line 298). -/
def catNumLe (a b : Source_Course) : Bool :=
  decide (a.cat_num ≤ b.cat_num)

/-- The sending-side clause of `format_rule` (lines 280-302): group the
source courses by `(min_gpa, max_gpa)` (dict insertion order, then
sorted), and concatenate one grade clause per group. -/
def source_course_list (scs : List Source_Course) : Option String :=
  let keys := pySort gradeKeyLe (pySetOf (scs.map (fun c => (c.min_gpa, c.max_gpa))))
  keys.foldlM
    (fun (acc : String) key =>
      match Build._grade key.1 key.2 with
      | none => none
      | some g =>
        let grade_str := if g ≠ "Pass" then g ++ " in " else g
        let courses := pySort catNumLe
          (scs.filter (fun c => decide ((c.min_gpa, c.max_gpa) = key)))
        let course_list := courses.map
          (fun c => c.discipline ++ " " ++ c.catalog_number)
        some (acc ++ grade_str ++ " " ++ andor_list course_list "and"))
    ""

/-- One iteration of the destination-course loop of `format_rule` (lines
311-323), acting on the state (destination_credits, has_bkcr,
destination_course_list).  The loop variable `discipline` of the source is
initialized to the empty string and never reassigned, so it is the
constant `""` here. -/
def destLoopStep (acc : ℚ × Bool × String) (course : Destination_Course) :
    ℚ × Bool × String :=
  let destination_credits :=
    if course.is_bkcr then acc.1 else acc.1 + course.transfer_credits
  let has_bkcr := if course.is_bkcr then true else acc.2.1
  let discipline := ""
  let lst := acc.2.2
  let lst :=
    if discipline ≠ course.discipline then
      let lst := if lst ≠ "" then pyStrip lst ['/'] ++ "; " else lst
      pyStrip lst ['/', ' '] ++ course.discipline ++ "-"
    else lst
  (destination_credits, has_bkcr, lst ++ course.catalog_number)

/-- The destination-course loop of `format_rule` (lines 307-323). -/
def destLoop (dcs : List Destination_Course) : ℚ × Bool × String :=
  dcs.foldl destLoopStep (0, false, "")

/-- `destination_course_list` after the loop (line 325). -/
def destination_course_list (dcs : List Destination_Course) : String :=
  pyReplace (pyStrip (destLoop dcs).2.2 ['/']) ";" " and "

/-- The non-blanket destination credit sum accumulated by the loop. -/
def destination_credits_pre (dcs : List Destination_Course) : ℚ :=
  (destLoop dcs).1

/-- Whether the loop saw a BKCR destination course. -/
def has_bkcr (dcs : List Destination_Course) : Bool :=
  (destLoop dcs).2.1

/-- The reported destination credits (lines 327-329): raised to the
sending-side minimum-credit sum when some destination course is BKCR and
the non-blanket sum falls short. -/
def destination_credits (rule : Transfer_Rule) : ℚ :=
  if destination_credits_pre rule.destination_courses
       < min_source_credits rule.source_courses
     ∧ has_bkcr rule.destination_courses
  then min_source_credits rule.source_courses
  else destination_credits_pre rule.destination_courses

/-- `format_rule` (build_rule_descriptions.py lines 240-342). -/
def format_rule (institution_names : List (String × String))
    (rule : Transfer_Rule) : Option String :=
  let source_course_ids := rule.source_courses.map (fun c => c.course_id)
  let destination_course_ids :=
    rule.destination_courses.map (fun c => c.course_id)
  if (pySetOf source_course_ids).length ≠ source_course_ids.length then none
  else if (pySetOf destination_course_ids).length
      ≠ destination_course_ids.length then none
  else
    match source_course_list rule.source_courses with
    | none => none
    | some scl =>
      let msc := min_source_credits rule.source_courses
      let xsc := max_source_credits rule.source_courses
      let source_credits_str :=
        if msc ≠ xsc then pyFloatStr msc ++ "-" ++ pyFloatStr xsc
        else pyFloatStr msc
      match dictGet institution_names rule.source_institution with
      | none => none
      | some src_name =>
        match dictGet institution_names rule.destination_institution with
        | none => none
        | some dst_name =>
          let description := scl ++ " at " ++ src_name ++ " ("
            ++ source_credits_str ++ " cr) transfers to " ++ dst_name
            ++ " as " ++ destination_course_list rule.destination_courses
            ++ " (" ++ pyFloatStr (destination_credits rule) ++ " cr)"
          some (pyReplace description "Pass" "Passing grade in")

/-! ## `destination_departments.py`: `oxfordize` and `destination_department`

The module-level dictionaries built from the database at import time are
collected into a `DDCtx` record; `destination_department` becomes a
function of that record and of its argument (an integer rule id or a
rule-key string).  Raised exceptions are modelled by `Except PyErr`. -/

/-- The Python exceptions `destination_department` can raise. -/
inductive PyErr where
  | valueError (msg : String)
  | unboundLocalError (name : String)
  | attributeError (name : String)
  | assertionError
  | keyError
deriving DecidableEq

/-- `Metadata` named tuple (shared_metadata.py lines 8-9). -/
structure Metadata where
  institution : String
  course_str : String
  is_ugrad : Bool
  is_active : Bool
  is_mesg : Bool
  is_bkcr : Bool
  is_unknown : Bool
deriving DecidableEq

/-- Python attribute access for the string-valued attributes of a
`Metadata` named tuple: any other attribute name raises
`AttributeError`.  In particular `sending_course.cuny_subject`
(destination_departments.py line 214) raises, because the `Metadata`
named tuple defines no `cuny_subject` field. -/
def Metadata.getattr (m : Metadata) (name : String) : Except PyErr String :=
  match name with
  | "institution" => .ok m.institution
  | "course_str" => .ok m.course_str
  | _ => .error (.attributeError name)

/-- A row of the `cuny_disciplines` query (destination_departments.py lines
62-70). -/
structure Discipline_Row where
  institution : String
  department : String
  discipline : String
  discipline_name : String
  cip_code : String
  cuny_subject : String
deriving DecidableEq

/-- The module-level dictionaries of destination_departments.py (lines
36-119): `_id_to_key`, `_disciplines`, `_department_names`,
`_cuny_subjects`, `_cip_codes`, `_cip_area_names`, `_sending_courses` and
`_receiving_courses`.  `sending_courses` and `receiving_courses` are
`defaultdict(set)` (missing key gives the empty set); the others are plain
dicts (missing key raises `KeyError`). -/
structure DDCtx where
  id_to_key : List (ℤ × String)
  disciplines : List ((String × String) × Discipline_Row)
  department_names : List ((String × String) × String)
  cuny_subjects : List ((String × String) × String)
  cip_codes : List ((String × String) × String)
  cip_area_names : List (String × String)
  sending_courses : List (String × List Metadata)
  receiving_courses : List (String × List Metadata)
deriving DecidableEq

/-- The dict returned by `destination_department` (line 277). -/
structure RoutingResult where
  rule_key : String
  department : String
  details : String
deriving DecidableEq

/-- Equality of embedded Python results is decidable. -/
instance exceptDecEq {e a : Type} [DecidableEq e] [DecidableEq a] :
    DecidableEq (Except e a) := fun
  | .error x, .error y =>
    if h : x = y then .isTrue (by rw [h]) else .isFalse (by simp [h])
  | .error _, .ok _ => .isFalse (by simp)
  | .ok _, .error _ => .isFalse (by simp)
  | .ok x, .ok y =>
    if h : x = y then .isTrue (by rw [h]) else .isFalse (by simp [h])

/-- `oxfordize` (destination_departments.py lines 124-137).  All call
sites pass lists of strings, so the `isinstance(q, tuple)` branch of the
comprehension is not modelled.  `none` models a failed assert. -/
def oxfordize (source_list : List String) (list_type : String) :
    Option String :=
  let sentence := joinComma (source_list.map (fun q => pyReplace q "," "__$__"))
  let comma_count := pyCountChar sentence ','
  if comma_count ≠ 0 then
    if pyLower list_type = "and" ∨ pyLower list_type = "or" then
      let conjunction_str := " " ++ list_type
      if comma_count = 1 then some (pyReplace sentence "," conjunction_str)
      else
        let last_comma := (pyRFindChar sentence ',' + 1).toNat
        some (pyTake sentence last_comma ++ conjunction_str
          ++ pyDrop sentence last_comma)
    else none
  else some (pyReplace sentence "__$__" ",")

/-- The list comprehension of line 243,
`[f'{c} ({_cip_area_names[c]})' for c in ...]`: the `_cip_area_names[c]`
lookup is not guarded by a `try`, so a missing key raises `KeyError`. -/
def decorateCips (cip_area_names : List (String × String)) :
    List String → Except PyErr (List String)
  | [] => .ok []
  | c :: rest =>
    match dictGet cip_area_names c with
    | none => .error .keyError
    | some t =>
      match decorateCips cip_area_names rest with
      | .error e => .error e
      | .ok l => .ok ((c ++ " (" ++ t ++ ")") :: l)

/-- The loop of destination_departments.py lines 213-214: collect the
sending courses' `cuny_subject` attributes into a set.  Since the
`Metadata` named tuple has no such field, the first iteration raises
`AttributeError`; the loop only completes (with the empty set) when there
are no sending courses. -/
def collectCunySubjects (acc : List String) :
    List Metadata → Except PyErr (List String)
  | [] => .ok acc
  | sc :: rest =>
    match sc.getattr "cuny_subject" with
    | .error e => .error e
    | .ok s => collectCunySubjects (pySetAdd acc s) rest

/-- The body of `destination_department` after the empty-receiving-set
check (destination_departments.py lines 158-277).  The local variable
`sending_subject` is only assigned by the loop over `sending_subjects`
(line 217), so it holds the last iterated subject and is unbound
(`Option.none`, giving `UnboundLocalError` when referenced) if that set is
empty. -/
def dd_body (ctx : DDCtx) (rule_key : String)
    (receiving_courses : List Metadata) : Except PyErr RoutingResult :=
  let dest_institution := pySlice rule_key 6 11
  let admin_courses := receiving_courses.filter (fun c => c.is_mesg || c.is_bkcr)
  let real_courses := receiving_courses.filter (fun c => !(c.is_mesg || c.is_bkcr))
  let real_subjects := pySetOf (real_courses.map (fun c => firstWord c.course_str))
  let departments := real_subjects.foldl
    (fun acc subj =>
      match dictGet ctx.disciplines (dest_institution, subj) with
      | some row => pySetAdd acc row.department
      | none => acc) []
  if real_subjects ≠ [] then
    if departments = [] then
      match oxfordize real_subjects "or" with
      | none => .error .assertionError
      | some ox => .ok ⟨rule_key, "Admin", "No department for " ++ ox⟩
    else if departments.length = 1 then
      let department := departments.headD ""
      match dictGet ctx.department_names (dest_institution, department) with
      | some name => .ok ⟨rule_key, department, name⟩
      | none => .ok ⟨rule_key, "Admin", department ++ " not found"⟩
    else
      match oxfordize departments "and" with
      | none => .error .assertionError
      | some ox =>
        .ok ⟨rule_key, "Admin", "Multiple receiving departments: " ++ ox⟩
  else
    let admin_subjects := pySetOf (admin_courses.map (fun c => firstWord c.course_str))
    let departments :=
      if admin_subjects.all
          (fun subj => (dictGet ctx.disciplines (dest_institution, subj)).isSome)
      then pySetOf (admin_subjects.filterMap
        (fun subj => (dictGet ctx.disciplines (dest_institution, subj)).map
          (fun r => r.department)))
      else []
    if departments.length = 1 then
      let department := departments.headD ""
      match dictGet ctx.department_names (dest_institution, department) with
      | some name => .ok ⟨rule_key, department, name⟩
      | none => .ok ⟨rule_key, "Admin", department ++ " not found"⟩
    else
      match collectCunySubjects [] (dictGetD ctx.sending_courses rule_key) with
      | .error e => .error e
      | .ok sending_subjects =>
        let sending_subject := sending_subjects.getLast?
        let receiving_departments := sending_subjects.foldl
          (fun acc subj =>
            match dictGet ctx.cuny_subjects (dest_institution, subj) with
            | some d => pySetAdd acc d
            | none => acc) []
        if receiving_departments.length = 1 then
          let department := receiving_departments.headD ""
          match sending_subject with
          | none => .error (.unboundLocalError "sending_subject")
          | some ss =>
            .ok ⟨rule_key, department,
              "Offers courses with same CUNY subject (" ++ ss ++ ")"⟩
        else if receiving_departments.length = 0 then
          let sending_cip_codes_set := (dictGetD ctx.sending_courses rule_key).foldl
            (fun acc sc =>
              match dictGet ctx.disciplines (sc.institution, firstWord sc.course_str) with
              | some row => pySetAdd acc (pyTake row.cip_code 2)
              | none => acc) []
          match decorateCips ctx.cip_area_names
              (sending_cip_codes_set.filter (fun c => c.length > 1)) with
          | .error e => .error e
          | .ok sending_cip_codes =>
            let receiving_departments := sending_cip_codes.foldl
              (fun acc scc =>
                match dictGet ctx.cip_codes (dest_institution, scc) with
                | some d => pySetAdd acc d
                | none => acc) []
            if receiving_departments.length = 0 then
              if sending_cip_codes ≠ [] then
                match sending_subject with
                | none => .error (.unboundLocalError "sending_subject")
                | some ss =>
                  match oxfordize sending_cip_codes "or" with
                  | none => .error .assertionError
                  | some ox =>
                    .ok ⟨rule_key, "Admin",
                      "No department found for CUNY subject " ++ ss
                        ++ " or CIP code area " ++ ox⟩
              else
                match sending_subject with
                | none => .error (.unboundLocalError "sending_subject")
                | some ss =>
                  .ok ⟨rule_key, "Admin",
                    "No department found for CUNY subject " ++ ss
                      ++ " and no CIP code area available for matching"⟩
            else if receiving_departments.length = 1 then
              let department := receiving_departments.headD ""
              match sending_subject with
              | none => .error (.unboundLocalError "sending_subject")
              | some ss =>
                match oxfordize sending_cip_codes "or" with
                | none => .error .assertionError
                | some ox =>
                  .ok ⟨rule_key, department,
                    "No department found for CUNY subject " ++ ss ++ ", but "
                      ++ department ++ " offers courses in CIP code area " ++ ox⟩
            else
              match sending_subject with
              | none => .error (.unboundLocalError "sending_subject")
              | some ss =>
                match oxfordize receiving_departments "and",
                      oxfordize sending_cip_codes "or" with
                | some oxd, some oxc =>
                  .ok ⟨rule_key, "Admin",
                    "No department found for CUNY subject " ++ ss ++ ", but "
                      ++ oxd ++ " offer courses in CIP code area " ++ oxc⟩
                | _, _ => .error .assertionError
        else
          match oxfordize receiving_departments "and" with
          | none => .error .assertionError
          | some oxd =>
            match sending_subject with
            | none => .error (.unboundLocalError "sending_subject")
            | some ss =>
              .ok ⟨rule_key, "Admin", oxd ++ " offer courses in " ++ ss⟩

/-- `destination_department` on an already-resolved rule key
(destination_departments.py lines 149-277): the empty-receiving-set check
of lines 155-156 raises `ValueError`, everything else is `dd_body`. -/
def dd_run (ctx : DDCtx) (rule_key : String) : Except PyErr RoutingResult :=
  let receiving_courses := dictGetD ctx.receiving_courses rule_key
  if receiving_courses = [] then
    .error (.valueError (rule_key ++ ": No Receiving Courses"))
  else dd_body ctx rule_key receiving_courses

/-- `destination_department` (destination_departments.py lines 142-277):
an integer argument is resolved through `_id_to_key` (`KeyError` when
absent), a string argument is used as the rule key directly. -/
def destination_department (ctx : DDCtx) (arg : ℤ ⊕ String) :
    Except PyErr RoutingResult :=
  match arg with
  | .inl rule_id =>
    match dictGet ctx.id_to_key rule_id with
    | none => .error .keyError
    | some rule_key => dd_run ctx rule_key
  | .inr rule_key => dd_run ctx rule_key

/-! ## Concrete inputs used by the witnesses and counterexamples -/

/-- A one-source-course, one-destination-course rule: MAT 101 (3 cr, any
grade) transfers as MAT 102 (3 cr). -/
def exRule6 : Transfer_Rule :=
  ⟨1, "XXX01", "YYY01", "MAT", 1, ":MAT:", "math", 0,
   [⟨10, 1, "MAT", "101", "Mathematics", "MATH", 101, 3, 3, 0, 4⟩],
   [⟨20, 1, "MAT", "102", "Mathematics", "MATH", 102, 3, "C", false, false⟩]⟩

/-- Institution names for `exRule6`; the receiving college name contains
the character sequence Pass. -/
def exNames6 : List (String × String) :=
  [("XXX01", "Sender College"), ("YYY01", "Passaic College")]

/-- A rule whose sending side carries 3 + 4 credits and whose receiving
side is a single BKCR course. -/
def exRule5 : Transfer_Rule :=
  ⟨2, "XXX01", "YYY01", "MAT", 1, ":MAT:", "math", 0,
   [⟨10, 1, "MAT", "101", "Mathematics", "MATH", 101, 3, 3, 0, 4⟩,
    ⟨11, 1, "MAT", "201", "Mathematics", "MATH", 201, 4, 4, 0, 4⟩],
   [⟨20, 1, "BKCR", "999", "Blanket", "ELEC", 999, 0, "B", false, true⟩]⟩

/-- A receiving course flagged BKCR (administrative). -/
def bkcrReceiving : Metadata := ⟨"QNS01", "BKCR 1", true, true, false, true, false⟩

/-- A sending course in discipline BIO at HOS01. -/
def bioSendingCourse : Metadata := ⟨"HOS01", "BIO 101", true, true, false, false, false⟩

/-- Context for the CIP-code-area fallback: the receiving side of the rule
is one BKCR course, the sending course belongs to discipline BIO with CIP
code 26.0101, no CUNY-subject match exists, and exactly one destination
department (BIODEPT) is recorded for CIP area 26. -/
def cipCtx : DDCtx :=
  ⟨[],
   [(("HOS01", "BIO"), ⟨"HOS01", "BIODEPT-H", "BIO", "Biology", "26.0101", "BIOL"⟩)],
   [], [],
   [(("QNS01", "26"), "BIODEPT")],
   [("26", "Biological Sciences")],
   [("HOS01:QNS01:BIO:1", [bioSendingCourse])],
   [("HOS01:QNS01:BIO:1", [bkcrReceiving])]⟩

/-- Context with an all-administrative receiving set whose subject resolves
to no department, and no sending courses at all. -/
def emptySendingCtx : DDCtx :=
  ⟨[], [], [], [], [], [], [],
   [("HOS01:QNS01:CHE:1", [bkcrReceiving])]⟩

/-- Context with a non-empty receiving set (all administrative) and one
sending course. -/
def attrCtx : DDCtx :=
  ⟨[], [], [], [], [], [],
   [("LEH01:QCC01:ENG:1", [bioSendingCourse])],
   [("LEH01:QCC01:ENG:1", [bkcrReceiving])]⟩

/-- Context with one entry in the id-to-key index. -/
def idKeyCtx : DDCtx :=
  ⟨[((7 : ℤ), "HOS01:QNS01:BIO:1")], [], [], [], [], [], [],
   [("HOS01:QNS01:BIO:1", [⟨"QNS01", "BIOL 201", true, true, false, false, false⟩])]⟩

/-! ## Supporting lemmas -/

/-- Python round of a nonnegative rational is nonnegative. -/
theorem pyRound_nonneg {q : ℚ} (h : 0 ≤ q) : 0 ≤ pyRound q := by
  unfold pyRound
  have hf : (0:ℤ) ≤ ⌊q⌋ := Int.floor_nonneg.mpr h
  dsimp only
  split
  · exact hf
  · split
    · omega
    · split <;> omega

/-- Python round is bounded by `n` whenever the argument is below
`n + 1/2` (at the tie the round-half-to-even value is at most `n`, since
the floor is then strictly below `n`). -/
theorem pyRound_le {q : ℚ} {n : ℤ} (h : q < n + 1/2) : pyRound q ≤ n := by
  unfold pyRound
  have hfl : (⌊q⌋ : ℚ) ≤ q := Int.floor_le q
  dsimp only
  split
  · rename_i h1
    have h2 : (⌊q⌋ : ℚ) < (n : ℚ) + 1 := by linarith
    have h3 : ⌊q⌋ < n + 1 := by exact_mod_cast h2
    omega
  · rename_i h1
    split
    · rename_i h2
      have h3 : (⌊q⌋ : ℚ) < (n : ℚ) := by linarith
      have h4 : ⌊q⌋ < n := by exact_mod_cast h3
      omega
    · rename_i h2
      have heq : q - (⌊q⌋ : ℚ) = 1/2 := le_antisymm (not_lt.mp h2) (not_lt.mp h1)
      have h3 : (⌊q⌋ : ℚ) < (n : ℚ) := by linarith
      have h4 : ⌊q⌋ < n := by exact_mod_cast h3
      split <;> omega

/-- Indexing the 14-entry letter table with an index between 0 and 13
succeeds and yields a table entry. -/
theorem pyGetItem_letters {i : ℤ} (h0 : 0 ≤ i) (h13 : i ≤ 13) :
    ∃ a ∈ letters, pyGetItem letters i = some a := by
  have hlen : i.toNat < letters.length := by
    simp only [letters, List.length]
    omega
  refine ⟨letters.get ⟨i.toNat, hlen⟩, List.get_mem _ _ _, ?_⟩
  simp [pyGetItem, if_pos h0, List.get?_eq_get hlen]

/-- The destination-course loop of `format_rule` accumulates the
transfer-credit sum of the non-BKCR courses and whether a BKCR course was
seen. -/
theorem destLoop_go (dcs : List Destination_Course) (q : ℚ) (b : Bool) (s : String) :
    (dcs.foldl destLoopStep (q, b, s)).1
        = q + ((dcs.filter (fun c => !c.is_bkcr)).map (fun c => c.transfer_credits)).sum
      ∧ (dcs.foldl destLoopStep (q, b, s)).2.1 = (b || dcs.any (fun c => c.is_bkcr)) := by
  induction dcs generalizing q b s with
  | nil => simp
  | cons c rest ih =>
    simp only [List.foldl_cons, List.filter_cons, List.any_cons]
    by_cases hb : c.is_bkcr
    · have hstep : destLoopStep (q, b, s) c
          = (q, true, (destLoopStep (q, b, s) c).2.2) := by
        simp [destLoopStep, hb]
      rw [hstep]
      rcases ih q true ((destLoopStep (q, b, s) c).2.2) with ⟨ih1, ih2⟩
      simp [hb, ih1, ih2]
    · have hstep : destLoopStep (q, b, s) c
          = (q + c.transfer_credits, b, (destLoopStep (q, b, s) c).2.2) := by
        simp [destLoopStep, hb]
      rw [hstep]
      rcases ih (q + c.transfer_credits) b ((destLoopStep (q, b, s) c).2.2) with ⟨ih1, ih2⟩
      simp only [hb, ih1, ih2]
      constructor
      · simp [hb]
        ring
      · simp [hb]

/-- The only exception the decorated-CIP comprehension can raise is
`KeyError`. -/
theorem decorateCips_error {m : List (String × String)} {l : List String}
    {e : PyErr} (h : decorateCips m l = .error e) : e = .keyError := by
  induction l with
  | nil => simp [decorateCips] at h
  | cons c rest ih =>
    simp only [decorateCips] at h
    cases hd : dictGet m c with
    | none =>
      rw [hd] at h
      cases h
      rfl
    | some t =>
      rw [hd] at h
      cases hr : decorateCips m rest with
      | error e2 =>
        rw [hr] at h
        cases h
        exact ih hr
      | ok l2 =>
        rw [hr] at h
        cases h

/-- The only exception the sending-subject collection can raise is the
`AttributeError` for the missing `cuny_subject` field. -/
theorem collectCunySubjects_error {acc : List String} {l : List Metadata}
    {e : PyErr} (h : collectCunySubjects acc l = .error e) :
    e = .attributeError "cuny_subject" := by
  induction l generalizing acc with
  | nil => simp [collectCunySubjects] at h
  | cons sc rest ih =>
    simp only [collectCunySubjects, Metadata.getattr] at h
    cases h
    rfl

set_option maxHeartbeats 1600000 in
/-- No branch of the body of `destination_department` raises `ValueError`:
that exception comes only from the empty-receiving-set check. -/
theorem dd_body_ne_valueError (ctx : DDCtx) (rk : String) (rc : List Metadata)
    (msg : String) : dd_body ctx rk rc ≠ .error (.valueError msg) := by
  intro h
  simp only [dd_body] at h
  repeat' split at h
  all_goals
    first
      | exact Except.noConfusion h
      | (injection h with h2; exact PyErr.noConfusion h2)
      | (injection h with h2; subst h2;
         exact PyErr.noConfusion (decorateCips_error (by assumption)))
      | (injection h with h2; subst h2;
         exact PyErr.noConfusion (collectCunySubjects_error (by assumption)))

/-! ## Claims -/

/-- C1 (counterexample): on the pair (0.5, 1.5) the grade formatter of
query.py does not return the string claimed by the spec, because after the
floor is normalized to 0.7 the between branch demands a strictly greater
minimum. -/
theorem C1_not_between : Query._grade (1/2) (3/2) ≠ some "between D- and D" := by
  with_unfolding_all decide

/-- C1 (amended): on the pair (0.5, 1.5) the formatter normalizes the
minimum to 0.7 (the result coincides with the one for (0.7, 1.5)); the
between branch requires a minimum strictly greater than 0.7, so the pair
falls through to the below branch, and round-half-to-even sends
1.5 times 3 = 4.5 to index 4, giving "below D+" (capitalized "Below D+"
in the build_rule_descriptions.py copy). -/
theorem C1_below_after_floor :
    Query._grade (1/2) (3/2) = some "below D+"
      ∧ Query._grade (1/2) (3/2) = Query._grade (7/10) (3/2)
      ∧ Build._grade (1/2) (3/2) = some "Below D+" := by
  refine ⟨?_, ?_, ?_⟩ <;> with_unfolding_all decide

/-- C2 (code evaluation): on the full passing range (0.7, 4.0) the
query.py formatter returns the misspelled string "any passsing grade"
(the correctly spelled fallback on its line 91 is unreachable), and the
build_rule_descriptions.py copy returns "Pass"; neither is the claimed
"any passing grade". -/
theorem C2_pass_wording :
    Query._grade (7/10) 4 = some "any passsing grade"
      ∧ Build._grade (7/10) 4 = some "Pass"
      ∧ Query._grade (7/10) 4 ≠ some "any passing grade" := by
  refine ⟨?_, ?_, ?_⟩ <;> with_unfolding_all decide

/-- C3 (counterexample): the pair (5.0, 5.0) satisfies the precondition
min_gpa less-or-equal max_gpa, yet the formatter raises: the or-above
branch computes letter index round(15.0) = 15, outside the 14-entry
table (an IndexError, modelled by none). -/
theorem C3_index_error : (5:ℚ) ≤ 5 ∧ Query._grade 5 5 = none := by
  exact ⟨by norm_num, by with_unfolding_all decide⟩

/-- C3 (amended): for every pair with 0 ≤ min_gpa ≤ max_gpa and
min_gpa < 4.5 the formatter of query.py raises no exception and returns
one of the four shapes produced by its branches — the (misspelled)
"any passsing grade", "X or above", "between X and Y", "below X" — with
X and Y letters of the fixed table. -/
theorem C3_total_in_range (mn mx : ℚ) (h0 : 0 ≤ mn) (h1 : mn ≤ mx) (h2 : mn < 9/2) :
    ∃ s, Query._grade mn mx = some s ∧
      (s = "any passsing grade"
       ∨ (∃ a ∈ letters, s = a ++ " or above")
       ∨ (∃ a ∈ letters, ∃ b ∈ letters, s = "between " ++ a ++ " and " ++ b)
       ∨ (∃ a ∈ letters, s = "below " ++ a)) := by
  unfold Query._grade
  rw [if_pos h1]
  set mn' : ℚ := if mn < 1 then 7/10 else mn with hmn
  set mx' : ℚ := if mx > 4 then 4 else mx with hmx
  have hmn0 : 7/10 ≤ mn' := by
    rw [hmn]; split
    · norm_num
    · linarith [not_lt.mp (by assumption : ¬mn < 1)]
  have hmn45 : mn' < 9/2 := by
    rw [hmn]; split
    · norm_num
    · exact h2
  have hmx0 : 0 ≤ mx' := by
    rw [hmx]; split
    · norm_num
    · linarith
  have hmx4 : mx' ≤ 4 := by
    rw [hmx]; split
    · norm_num
    · linarith [not_lt.mp (by assumption : ¬4 < mx)]
  have imn0 : 0 ≤ pyRound (mn' * 3) := pyRound_nonneg (by linarith)
  have imn13 : pyRound (mn' * 3) ≤ 13 := pyRound_le (by push_cast; linarith)
  have imx0 : 0 ≤ pyRound (mx' * 3) := pyRound_nonneg (by linarith)
  have imx13 : pyRound (mx' * 3) ≤ 13 := pyRound_le (by push_cast; linarith)
  by_cases b1 : mn' < 1 ∧ mx' > 37/10
  · rw [if_pos b1]
    exact ⟨_, rfl, Or.inl rfl⟩
  · rw [if_neg b1]
    by_cases b2 : mn' ≥ 7/10 ∧ mx' ≥ 37/10
    · rw [if_pos b2]
      obtain ⟨a, ha, hget⟩ := pyGetItem_letters imn0 imn13
      rw [hget]
      exact ⟨_, rfl, Or.inr (Or.inl ⟨a, ha, rfl⟩)⟩
    · rw [if_neg b2]
      by_cases b3 : mn' > 7/10 ∧ mx' < 37/10
      · rw [if_pos b3]
        obtain ⟨a, ha, hgeta⟩ := pyGetItem_letters imn0 imn13
        obtain ⟨b, hb, hgetb⟩ := pyGetItem_letters imx0 imx13
        rw [hgeta, hgetb]
        exact ⟨_, rfl, Or.inr (Or.inr (Or.inl ⟨a, ha, b, hb, rfl⟩))⟩
      · rw [if_neg b3]
        by_cases b4 : mx' < 37/10
        · rw [if_pos b4]
          obtain ⟨b, hb, hgetb⟩ := pyGetItem_letters imx0 imx13
          rw [hgetb]
          exact ⟨_, rfl, Or.inr (Or.inr (Or.inr ⟨b, hb, rfl⟩))⟩
        · exfalso
          push_neg at b2
          exact b4 (b2 hmn0)

/-- C3 (witness): the amended totality theorem applied at (2, 3). -/
theorem C3_total_in_range_witness :
    (0:ℚ) ≤ 2 ∧ (2:ℚ) ≤ 3 ∧ (2:ℚ) < 9/2 ∧
      (∃ s, Query._grade 2 3 = some s ∧
        (s = "any passsing grade"
         ∨ (∃ a ∈ letters, s = a ++ " or above")
         ∨ (∃ a ∈ letters, ∃ b ∈ letters, s = "between " ++ a ++ " and " ++ b)
         ∨ (∃ a ∈ letters, s = "below " ++ a))) :=
  ⟨by norm_num, by norm_num, by norm_num,
   C3_total_in_range 2 3 (by norm_num) (by norm_num) (by norm_num)⟩

/-- C4 (code evaluation): on the list with an embedded comma, oxfordize
leaves its escape marker in the output instead of restoring the comma
(the restoration only happens in the branch where the joined sentence has
no comma at all), and andor_list of build_rule_descriptions.py lets the
embedded comma shift the two-item case into the Oxford-comma shape. -/
theorem C4_comma_escape_leak :
    oxfordize ["a,b", "c"] "and" = some "a__$__b and c"
      ∧ andor_list ["a,b", "c"] "and" = "a,b, and c" := by
  exact ⟨by decide, by decide⟩

/-- C5: whenever some receiving course is flagged BKCR and the
transfer-credit sum of the non-blanket receiving courses is below the
sending-side (minimum) credit sum, the reported receiving credit total is
raised to equal the sending-side sum. -/
theorem C5_bkcr_credit_raise (rule : Transfer_Rule)
    (hb : rule.destination_courses.any (fun c => c.is_bkcr))
    (hlt : ((rule.destination_courses.filter (fun c => !c.is_bkcr)).map
        (fun c => c.transfer_credits)).sum < min_source_credits rule.source_courses) :
    destination_credits rule = min_source_credits rule.source_courses := by
  have h1 := destLoop_go rule.destination_courses 0 false ""
  unfold destination_credits destination_credits_pre has_bkcr destLoop
  rw [if_pos]
  constructor
  · rw [h1.1]
    linarith
  · rw [h1.2]
    simp [hb]

/-- C5 (witness): for sending credits 3 and 4 and a receiving side of one
BKCR course the reported receiving credit total is 7. -/
theorem C5_bkcr_credit_raise_witness :
    (((exRule5.destination_courses.filter (fun c => !c.is_bkcr)).map
        (fun c => c.transfer_credits)).sum < min_source_credits exRule5.source_courses)
      ∧ destination_credits exRule5 = 7 :=
  ⟨by with_unfolding_all decide,
   (C5_bkcr_credit_raise exRule5 (by decide) (by with_unfolding_all decide)).trans
     (by with_unfolding_all decide)⟩

set_option maxHeartbeats 2000000 in
/-- C6 (counterexample): with the receiving institution named Passaic
College, the final replace also rewrites the occurrence of Pass inside
that name, so the sentence is not the one the claim predicts (which keeps
every non-leading occurrence unchanged). -/
theorem C6_passaic_rewritten :
    format_rule exNames6 exRule6
        = some ("Passing grade in MAT 101 at Sender College (3.0 cr) transfers to "
            ++ "Passing grade inaic College as MAT-102 (3.0 cr)")
      ∧ ("Passing grade in MAT 101 at Sender College (3.0 cr) transfers to "
            ++ "Passing grade inaic College as MAT-102 (3.0 cr)"
          ≠ "Passing grade in MAT 101 at Sender College (3.0 cr) transfers to "
            ++ "Passaic College as MAT-102 (3.0 cr)") := by
  exact ⟨by with_unfolding_all decide, by decide⟩

set_option maxHeartbeats 2000000 in
/-- C6 (amended): the replacement of Pass by Passing grade in is a global
string replace over the whole composed sentence: for arbitrary institution
display names the output is the raw description (leading grade clause,
names and course list included) with every occurrence replaced. -/
theorem C6_global_replace (sn dn : String) :
    format_rule [("XXX01", sn), ("YYY01", dn)] exRule6 =
      some (pyReplace ("Pass MAT 101 at " ++ sn ++ " (3.0 cr) transfers to "
        ++ dn ++ " as MAT-102 (3.0 cr)") "Pass" "Passing grade in") := by
  have h : ("Pass MAT 101" ++ " at " ++ sn ++ " (" ++ "3.0" ++ " cr) transfers to "
        ++ dn ++ " as " ++ "MAT-102" ++ " (" ++ "3.0" ++ " cr)" : String)
      = "Pass MAT 101 at " ++ sn ++ " (3.0 cr) transfers to " ++ dn
        ++ " as MAT-102 (3.0 cr)" := by
    apply String.ext
    simp only [String.data_append, List.append_assoc]
    rfl
  calc format_rule [("XXX01", sn), ("YYY01", dn)] exRule6
      = some (pyReplace ("Pass MAT 101" ++ " at " ++ sn ++ " (" ++ "3.0"
          ++ " cr) transfers to " ++ dn ++ " as " ++ "MAT-102" ++ " ("
          ++ "3.0" ++ " cr)") "Pass" "Passing grade in") := by with_unfolding_all rfl
    _ = some (pyReplace ("Pass MAT 101 at " ++ sn ++ " (3.0 cr) transfers to "
          ++ dn ++ " as MAT-102 (3.0 cr)") "Pass" "Passing grade in") := by rw [h]

/-- C7 (code evaluation): in the administrative-only path with no
CUNY-subject match and exactly one destination department offering the
matching CIP area 26, the router does not select that department: it
crashes with AttributeError at the sending-subject collection, because
the Metadata named tuple has no cuny_subject field.  Moreover, even the
CIP lookup itself could never match: the dictionary is keyed by the bare
two-character area while the code looks up the decorated display string. -/
theorem C7_cip_fallback_unreached :
    destination_department cipCtx (.inr "HOS01:QNS01:BIO:1")
        = .error (.attributeError "cuny_subject")
      ∧ dictGet cipCtx.cip_codes ("QNS01", "26") = some "BIODEPT"
      ∧ dictGet cipCtx.cip_codes ("QNS01", "26 (Biological Sciences)") = none := by
  exact ⟨by decide, by decide, by decide⟩

/-- C8 (code evaluation): with a non-empty, entirely administrative
receiving set whose subject resolves to no department and an empty sending
set, the router does not return a routing result: the detail f-string
references the loop variable sending_subject, which was never bound, and
the call raises UnboundLocalError. -/
theorem C8_unbound_sending_subject :
    dictGetD emptySendingCtx.receiving_courses "HOS01:QNS01:CHE:1" ≠ []
      ∧ destination_department emptySendingCtx (.inr "HOS01:QNS01:CHE:1")
          = .error (.unboundLocalError "sending_subject") := by
  exact ⟨by decide, by decide⟩

/-- C9 (counterexample): the router also fails fatally on a rule whose
receiving set is non-empty — here the all-administrative receiving set
falls through to the sending-subject collection, which raises
AttributeError — so failing is not equivalent to the receiving set being
empty. -/
theorem C9_nonempty_crash :
    dictGetD attrCtx.receiving_courses "LEH01:QCC01:ENG:1" ≠ []
      ∧ destination_department attrCtx (.inr "LEH01:QCC01:ENG:1")
          = .error (.attributeError "cuny_subject") := by
  exact ⟨by decide, by decide⟩

/-- C9 (amended): the distinct error of the empty-receiving-set check —
ValueError with the message "rule_key: No Receiving Courses" — is raised
exactly when the receiving-course set for the given rule key is empty;
no other branch of the router raises a ValueError. -/
theorem C9_valueError_iff (ctx : DDCtx) (key : String) :
    destination_department ctx (.inr key)
        = .error (.valueError (key ++ ": No Receiving Courses"))
      ↔ dictGetD ctx.receiving_courses key = [] := by
  constructor
  · intro h
    by_contra hne
    simp only [destination_department, dd_run] at h
    rw [if_neg hne] at h
    exact dd_body_ne_valueError ctx key _ _ h
  · intro h
    simp [destination_department, dd_run, h]

/-- C10: for every rule id present in the id-to-key index, routing by the
integer id gives exactly the same result as routing by the corresponding
rule-key string. -/
theorem C10_id_key_equiv (ctx : DDCtx) (i : ℤ) (key : String)
    (h : dictGet ctx.id_to_key i = some key) :
    destination_department ctx (.inl i) = destination_department ctx (.inr key) := by
  simp [destination_department, h]

/-- C10 (witness): the equivalence applied to a concrete context mapping
id 7 to a rule key. -/
theorem C10_id_key_equiv_witness :
    dictGet idKeyCtx.id_to_key 7 = some "HOS01:QNS01:BIO:1"
      ∧ destination_department idKeyCtx (.inl 7)
          = destination_department idKeyCtx (.inr "HOS01:QNS01:BIO:1") :=
  ⟨by decide, C10_id_key_equiv idKeyCtx 7 "HOS01:QNS01:BIO:1" (by decide)⟩
